import Mathlib

/-!
Verification of the Negotiation Strategy Engine of the `tactoairpods`
repository (TechEuropeMunich), as a shallow embedding in Lean 4.

The embedded code comes from:
  - `mcp_host/tools/simulate_supplier_response.py`
    (`_analyze_user_message`, `_determine_supplier_strategy`,
     `_calculate_confidence`);
  - `mcp_host/tools/summarize_negotiation_transcript.py`
    (`summarize_negotiation_transcript_tool`, `_analyze_transcript`,
     `_generate_basic_summary`, `_analyze_strategies`,
     `_identify_buyer_strategies`, `_identify_supplier_strategies`,
     `_assess_strategy_effectiveness`, `_analyze_conversation_flow`,
     `_identify_conversation_phases`, `_calculate_key_metrics`,
     `_identify_improvement_areas`, `_identify_strengths`).

Modelling conventions:
  - Python floats are modelled as rationals (`Rat`);
  - Python dictionaries for transcript entries, supplier data and the
    report are modelled as fixed-shape structures; a missing dictionary
    key whose Python truthiness is tested maps to the empty string or
    empty list;
  - Python `str.lower()` maps characters through `Char.toLower`
    (ASCII case folding, which agrees with Python on the ASCII keyword
    lexicons the code uses);
  - Python `kw in text` (substring containment) is `listIsSubstr`;
  - Python `len(s.split())` (whitespace word count) is `wordCount`;
  - the external sentiment call (`llm_service.analyze_conversation_sentiment`)
    and the transcript file read are effectful collaborators; they enter
    the embedding as explicit parameters (`Except`/`Option` values);
  - the report's wall-clock `timestamp` field is real time and is left
    out of the embedded report.
-/

/-- Boolean prefix test on character lists. -/
def listIsPrefix (pat text : List Char) : Bool :=
  match pat, text with
  | [], _ => true
  | _ :: _, [] => false
  | p :: ps, t :: ts => p == t && listIsPrefix ps ts

/-- Boolean substring (contiguous infix) test on character lists;
models Python `pat in text`. -/
def listIsSubstr (pat text : List Char) : Bool :=
  listIsPrefix pat text ||
    match text with
    | [] => false
    | _ :: ts => listIsSubstr pat ts

/-- Python `message.lower()`, as a character list (ASCII case folding). -/
def lowerStr (s : String) : List Char := s.toList.map Char.toLower

/-- Python `message.lower()`, kept as a `String`. -/
def lowerString (s : String) : String := String.mk (s.toList.map Char.toLower)

/-- Python `any(word in text for word in kws)`. -/
def containsAny (text : List Char) (kws : List String) : Bool :=
  kws.any (fun kw => listIsSubstr kw.toList text)

/-- Helper for `wordCount`: counts maximal non-whitespace runs; the
Boolean flag records whether the previous character was inside a word. -/
def countWordsAux : List Char → Bool → Nat
  | [], _ => 0
  | c :: rest, inWord =>
    if c.isWhitespace then countWordsAux rest false
    else (if inWord then 0 else 1) + countWordsAux rest true

/-- Python `len(s.split())`: number of whitespace-separated words. -/
def wordCount (s : String) : Nat := countWordsAux s.toList false

/-- One transcript entry: `{"role": ..., "message": ...}`. -/
structure TranscriptEntry where
  role : String
  message : String
deriving DecidableEq

/-- Supplier data dictionary, as consumed by
`_determine_supplier_strategy` and `_calculate_confidence`.
A key that is missing in the Python dictionary behaves, under the
code's truthiness tests, exactly like the empty string / empty list. -/
structure SupplierData where
  supplier_name : String
  prices : List Rat
  products : List String
  quality_metrics : List Rat
  delivery_times : List Rat
deriving DecidableEq

/-- Result dictionary of `_analyze_user_message`
(`simulate_supplier_response.py`, lines 98-152). -/
structure MessageAnalysis where
  intent : String
  urgency : String
  price_focus : Bool
  volume_focus : Bool
  quality_focus : Bool
  delivery_focus : Bool
  tone : String
  leverage_points : List String
deriving DecidableEq

/-- Keyword lexicons of `_analyze_user_message`, verbatim from the source. -/
def priceKeywords : List String := ["discount", "reduce", "lower", "cheaper", "price"]

def volumeKeywords : List String := ["volume", "quantity", "bulk", "more", "increase"]

def qualityKeywords : List String := ["quality", "standard", "specification", "defect"]

def deliveryKeywords : List String := ["delivery", "shipping", "timeline", "schedule"]

def urgencyHighKeywords : List String := ["urgent", "asap", "immediately", "quickly"]

def urgencyMediumKeywords : List String := ["soon", "priority", "important"]

def politeKeywords : List String := ["please", "thank", "appreciate", "would like"]

def demandingKeywords : List String := ["must", "require", "need", "demand"]

def negativeKeywords : List String := ["unacceptable", "disappointed", "concerned"]

def competitionKeywords : List String := ["competitor", "alternative", "other supplier"]

def relationshipKeywords : List String := ["long term", "partnership", "relationship"]

def marketKeywords : List String := ["market", "industry", "trend"]

/-- `_analyze_user_message` (`simulate_supplier_response.py`, lines 98-152).
The source mutates one dictionary through four independent if/elif blocks
(intent, urgency, tone, leverage points); here each resulting field is
written out directly.  The intent if/elif chain appears once as the
`intent` field and once as the mutually exclusive focus flags (a later
`elif` branch fires only when every earlier condition is false, hence the
negated conjuncts).  The leverage list is appended to in the source's
order competition, relationship, market_conditions. -/
def _analyze_user_message (message : String) : MessageAnalysis :=
  let message_lower := lowerStr message
  { intent :=
      if containsAny message_lower priceKeywords then "price_reduction"
      else if containsAny message_lower volumeKeywords then "volume_increase"
      else if containsAny message_lower qualityKeywords then "quality_discussion"
      else if containsAny message_lower deliveryKeywords then "delivery_discussion"
      else "general"
    urgency :=
      if containsAny message_lower urgencyHighKeywords then "high"
      else if containsAny message_lower urgencyMediumKeywords then "medium"
      else "normal"
    price_focus := containsAny message_lower priceKeywords
    volume_focus :=
      !containsAny message_lower priceKeywords &&
        containsAny message_lower volumeKeywords
    quality_focus :=
      !containsAny message_lower priceKeywords &&
        !containsAny message_lower volumeKeywords &&
        containsAny message_lower qualityKeywords
    delivery_focus :=
      !containsAny message_lower priceKeywords &&
        !containsAny message_lower volumeKeywords &&
        !containsAny message_lower qualityKeywords &&
        containsAny message_lower deliveryKeywords
    tone :=
      if containsAny message_lower politeKeywords then "polite"
      else if containsAny message_lower demandingKeywords then "demanding"
      else if containsAny message_lower negativeKeywords then "negative"
      else "professional"
    leverage_points :=
      (if containsAny message_lower competitionKeywords then ["competition"] else []) ++
      (if containsAny message_lower relationshipKeywords then ["relationship"] else []) ++
      (if containsAny message_lower marketKeywords then ["market_conditions"] else []) }

/-- The "strategy factors" computed (but never used for the label) by
`_determine_supplier_strategy` (`simulate_supplier_response.py`,
lines 166-190). -/
def _strategy_factors (supplier_data : SupplierData) : List String :=
  (if supplier_data.prices ≠ [] then
    let avg_price : Rat := supplier_data.prices.sum / (supplier_data.prices.length : Rat)
    if avg_price > 1000 then ["premium"] else ["competitive"]
   else []) ++
  (if supplier_data.quality_metrics ≠ [] then
    let avg_quality : Rat :=
      supplier_data.quality_metrics.sum / (supplier_data.quality_metrics.length : Rat)
    if avg_quality > 8 then ["quality_focused"] else ["cost_focused"]
   else []) ++
  (if supplier_data.delivery_times ≠ [] then
    let avg_delivery : Rat :=
      supplier_data.delivery_times.sum / (supplier_data.delivery_times.length : Rat)
    if avg_delivery < 7 then ["fast_delivery"] else ["standard_delivery"]
   else [])

/-- `_determine_supplier_strategy` (`simulate_supplier_response.py`,
lines 154-206).  `buyer_messages` and `strategy_factors` are computed by
the source but unused by the returned label; they are kept as dead
bindings for fidelity. -/
def _determine_supplier_strategy (supplier_data : SupplierData)
    (transcript : List TranscriptEntry) (message_analysis : MessageAnalysis) : String :=
  let supplier_messages := transcript.filter (fun m => m.role == "supplier")
  let _buyer_messages := transcript.filter (fun m => m.role == "buyer")
  let _factors := _strategy_factors supplier_data
  if supplier_messages.length = 0 then "initial_response"
  else if supplier_messages.length < 2 then "building_relationship"
  else if message_analysis.tone = "demanding" then "defensive"
  else if "competition" ∈ message_analysis.leverage_points then "competitive"
  else if message_analysis.urgency = "high" then "opportunistic"
  else if message_analysis.price_focus ∧ 2 ≤ supplier_messages.length then "collaborative"
  else "collaborative"

/-- `_calculate_confidence` (`simulate_supplier_response.py`, lines 210-230). -/
def _calculate_confidence (supplier_data : SupplierData)
    (message_analysis : MessageAnalysis) : Rat :=
  let confidence : Rat := 1/2
  let confidence := if supplier_data.supplier_name ≠ "" then confidence + 1/10 else confidence
  let confidence := if supplier_data.prices ≠ [] then confidence + 1/10 else confidence
  let confidence := if supplier_data.products ≠ [] then confidence + 1/10 else confidence
  let confidence := if supplier_data.quality_metrics ≠ [] then confidence + 1/10 else confidence
  let confidence := if supplier_data.delivery_times ≠ [] then confidence + 1/10 else confidence
  let confidence := if message_analysis.intent ≠ "general" then confidence + 1/10 else confidence
  min confidence 1

/-- Number of confidence indicators that fire in `_calculate_confidence`:
the five non-empty profile fields plus a non-`general` intent. -/
def confidenceIndicators (supplier_data : SupplierData)
    (message_analysis : MessageAnalysis) : Nat :=
  (if supplier_data.supplier_name ≠ "" then 1 else 0) +
  (if supplier_data.prices ≠ [] then 1 else 0) +
  (if supplier_data.products ≠ [] then 1 else 0) +
  (if supplier_data.quality_metrics ≠ [] then 1 else 0) +
  (if supplier_data.delivery_times ≠ [] then 1 else 0) +
  (if message_analysis.intent ≠ "general" then 1 else 0)

/-- Profile order "has no more non-empty optional fields than":
every field that is non-empty in `d₁` is non-empty in `d₂`. -/
def profileFieldsLE (d₁ d₂ : SupplierData) : Prop :=
  (d₁.supplier_name ≠ "" → d₂.supplier_name ≠ "") ∧
  (d₁.prices ≠ [] → d₂.prices ≠ []) ∧
  (d₁.products ≠ [] → d₂.products ≠ []) ∧
  (d₁.quality_metrics ≠ [] → d₂.quality_metrics ≠ []) ∧
  (d₁.delivery_times ≠ [] → d₂.delivery_times ≠ [])

instance (d₁ d₂ : SupplierData) : Decidable (profileFieldsLE d₁ d₂) := by
  unfold profileFieldsLE; infer_instance

/-- `summary` block of the report (`_generate_basic_summary`). -/
structure Summary where
  total_messages : Nat
  buyer_messages : Nat
  supplier_messages : Nat
  buyer_word_count : Nat
  supplier_word_count : Nat
  average_message_length : Rat
  conversation_balance : Rat
deriving DecidableEq

/-- `_generate_basic_summary` (`summarize_negotiation_transcript.py`,
lines 164-181). -/
def _generate_basic_summary (transcript_data : List TranscriptEntry) : Summary :=
  let buyer_messages := transcript_data.filter (fun m => m.role == "buyer")
  let supplier_messages := transcript_data.filter (fun m => m.role == "supplier")
  let total_messages := transcript_data.length
  let buyer_word_count := (buyer_messages.map (fun m => wordCount m.message)).sum
  let supplier_word_count := (supplier_messages.map (fun m => wordCount m.message)).sum
  { total_messages := total_messages
    buyer_messages := buyer_messages.length
    supplier_messages := supplier_messages.length
    buyer_word_count := buyer_word_count
    supplier_word_count := supplier_word_count
    average_message_length :=
      if 0 < total_messages then
        ((buyer_word_count + supplier_word_count : Nat) : Rat) / (total_messages : Rat)
      else 0
    conversation_balance :=
      if supplier_messages ≠ [] then
        (buyer_messages.length : Rat) / (supplier_messages.length : Rat)
      else 0 }

/-- Python `" ".join(msg.get("message","").lower() for msg in msgs)` for the
entries of `transcript_data` whose role is `role`, as a character list. -/
def joinedRoleText (role : String) (transcript_data : List TranscriptEntry) : List Char :=
  (String.intercalate " "
    ((transcript_data.filter (fun m => m.role == role)).map
      (fun m => lowerString m.message))).toList

/-- `_identify_buyer_strategies` (`summarize_negotiation_transcript.py`,
lines 196-222). -/
def _identify_buyer_strategies (transcript_data : List TranscriptEntry) : List String :=
  let all_buyer_text := joinedRoleText "buyer" transcript_data
  (if containsAny all_buyer_text ["competitor", "alternative", "other supplier"] then
    ["competition_leverage"] else []) ++
  (if containsAny all_buyer_text ["volume", "bulk", "large order"] then
    ["volume_leverage"] else []) ++
  (if containsAny all_buyer_text ["long term", "partnership", "relationship"] then
    ["relationship_building"] else []) ++
  (if containsAny all_buyer_text ["market", "industry", "trend"] then
    ["market_pressure"] else []) ++
  (if containsAny all_buyer_text ["urgent", "asap", "immediately"] then
    ["urgency_pressure"] else []) ++
  (if containsAny all_buyer_text ["budget", "cost", "price", "discount"] then
    ["price_focus"] else [])

/-- `_identify_supplier_strategies` (`summarize_negotiation_transcript.py`,
lines 224-247). -/
def _identify_supplier_strategies (transcript_data : List TranscriptEntry) : List String :=
  let all_supplier_text := joinedRoleText "supplier" transcript_data
  (if containsAny all_supplier_text ["quality", "standard", "value"] then
    ["value_proposition"] else []) ++
  (if containsAny all_supplier_text ["cost", "price", "market"] then
    ["cost_justification"] else []) ++
  (if containsAny all_supplier_text ["relationship", "partnership", "long term"] then
    ["relationship_focus"] else []) ++
  (if containsAny all_supplier_text ["difficult", "challenge", "concern"] then
    ["resistance"] else []) ++
  (if containsAny all_supplier_text ["alternative", "option", "solution"] then
    ["alternative_offering"] else [])

/-- `strategy_effectiveness` block (`_assess_strategy_effectiveness`). -/
structure StrategyEffectiveness where
  buyer_strategy_count : Nat
  supplier_strategy_count : Nat
  strategy_diversity : Nat
  balanced_negotiation : Bool
deriving DecidableEq

/-- `_assess_strategy_effectiveness` (`summarize_negotiation_transcript.py`,
lines 249-256).  `len(set(buyer + supplier))` is the number of distinct
strings in the concatenation, i.e. the length of its deduplication. -/
def _assess_strategy_effectiveness (buyer_strategies supplier_strategies : List String) :
    StrategyEffectiveness :=
  { buyer_strategy_count := buyer_strategies.length
    supplier_strategy_count := supplier_strategies.length
    strategy_diversity := ((buyer_strategies ++ supplier_strategies).dedup).length
    balanced_negotiation :=
      ((buyer_strategies.length : Int) - (supplier_strategies.length : Int)).natAbs ≤ 2 }

/-- `strategy_analysis` block of the report (`_analyze_strategies`). -/
structure StrategyAnalysis where
  buyer_strategies : List String
  supplier_strategies : List String
  strategy_effectiveness : StrategyEffectiveness
deriving DecidableEq

/-- `_analyze_strategies` (`summarize_negotiation_transcript.py`,
lines 184-194). -/
def _analyze_strategies (transcript_data : List TranscriptEntry) : StrategyAnalysis :=
  let buyer_strategies := _identify_buyer_strategies transcript_data
  let supplier_strategies := _identify_supplier_strategies transcript_data
  { buyer_strategies := buyer_strategies
    supplier_strategies := supplier_strategies
    strategy_effectiveness :=
      _assess_strategy_effectiveness buyer_strategies supplier_strategies }

/-- One conversation phase: a name plus the slice of entries it holds. -/
structure Phase where
  name : String
  messages : List TranscriptEntry
deriving DecidableEq

/-- `_identify_conversation_phases` (`summarize_negotiation_transcript.py`,
lines 286-304).  Python slices `l[:p]`, `l[p:2p]`, `l[2p:3p]`, `l[3p:]`
are `take`/`drop` combinations; out-of-range slices clamp to empty just
as in Python. -/
def _identify_conversation_phases (transcript_data : List TranscriptEntry) : List Phase :=
  let total_messages := transcript_data.length
  if total_messages = 0 then []
  else
    let phase_size := max 1 (total_messages / 4)
    [ { name := "opening", messages := transcript_data.take phase_size },
      { name := "exploration", messages := (transcript_data.drop phase_size).take phase_size },
      { name := "negotiation", messages := (transcript_data.drop (2 * phase_size)).take phase_size },
      { name := "closing", messages := transcript_data.drop (3 * phase_size) } ]

/-- One entry of `message_patterns` in `_analyze_conversation_flow`. -/
structure MessagePattern where
  position : Nat
  role : String
  length : Nat
deriving DecidableEq

/-- `conversation_flow` block of the report. -/
structure ConversationFlow where
  message_patterns : List MessagePattern
  average_message_length : Rat
  conversation_phases : List Phase
  conversation_length : Nat
deriving DecidableEq

/-- `_analyze_conversation_flow` (`summarize_negotiation_transcript.py`,
lines 258-284). -/
def _analyze_conversation_flow (transcript_data : List TranscriptEntry) : ConversationFlow :=
  let message_patterns := transcript_data.enum.map
    (fun p => { position := p.1, role := p.2.role,
                length := wordCount p.2.message : MessagePattern })
  let total_length := (message_patterns.map (fun p => p.length)).sum
  { message_patterns := message_patterns
    average_message_length :=
      if message_patterns ≠ [] then (total_length : Rat) / (message_patterns.length : Rat)
      else 0
    conversation_phases := _identify_conversation_phases transcript_data
    conversation_length := transcript_data.length }

/-- `key_metrics` block of the report. -/
structure KeyMetrics where
  total_duration : Nat
  average_response_time : Rat
  buyer_participation : Rat
  supplier_participation : Rat
  conversation_turn_count : Nat
deriving DecidableEq

/-- The `response_times` list of `_calculate_key_metrics`: a `1` for every
adjacent pair of entries whose roles differ (`transcript_data[i]` vs
`transcript_data[i-1]`, `i = 1..N-1`). -/
def _response_times (transcript_data : List TranscriptEntry) : List Nat :=
  ((transcript_data.zip transcript_data.tail).filter
    (fun pr => pr.1.role != pr.2.role)).map (fun _ => 1)

/-- `_calculate_key_metrics` (`summarize_negotiation_transcript.py`,
lines 306-326). -/
def _calculate_key_metrics (transcript_data : List TranscriptEntry) : KeyMetrics :=
  let buyer_messages := transcript_data.filter (fun m => m.role == "buyer")
  let supplier_messages := transcript_data.filter (fun m => m.role == "supplier")
  let response_times := _response_times transcript_data
  let avg_response_time : Rat :=
    if response_times ≠ [] then
      ((response_times.sum : Nat) : Rat) / (response_times.length : Rat)
    else 0
  { total_duration := transcript_data.length
    average_response_time := avg_response_time
    buyer_participation :=
      if transcript_data ≠ [] then
        (buyer_messages.length : Rat) / (transcript_data.length : Rat)
      else 0
    supplier_participation :=
      if transcript_data ≠ [] then
        (supplier_messages.length : Rat) / (transcript_data.length : Rat)
      else 0
    conversation_turn_count := transcript_data.length }

/-- `_identify_improvement_areas` (`summarize_negotiation_transcript.py`,
lines 328-351). -/
def _identify_improvement_areas (transcript_data : List TranscriptEntry) : List String :=
  let buyer_messages := transcript_data.filter (fun m => m.role == "buyer")
  let supplier_messages := transcript_data.filter (fun m => m.role == "supplier")
  let buyer_text := joinedRoleText "buyer" transcript_data
  (if buyer_messages.length < 2 then
    ["Buyer should engage more actively in the conversation"] else []) ++
  (if supplier_messages.length > buyer_messages.length * 2 then
    ["Buyer should take more initiative in the negotiation"] else []) ++
  (if listIsSubstr "price".toList buyer_text ∧ ¬ listIsSubstr "discount".toList buyer_text then
    ["Consider asking for specific discounts or price reductions"] else []) ++
  (if ¬ containsAny buyer_text ["volume", "competitor", "market", "long term"] then
    ["Consider using leverage points like volume, competition, or long-term relationship"]
   else [])

/-- `_identify_strengths` (`summarize_negotiation_transcript.py`,
lines 353-373). -/
def _identify_strengths (transcript_data : List TranscriptEntry) : List String :=
  let buyer_messages := transcript_data.filter (fun m => m.role == "buyer")
  let buyer_text := joinedRoleText "buyer" transcript_data
  (if containsAny buyer_text ["please", "thank", "appreciate"] then
    ["Maintained professional and polite tone"] else []) ++
  (if containsAny buyer_text ["volume", "bulk", "large order"] then
    ["Used volume as leverage effectively"] else []) ++
  (if containsAny buyer_text ["long term", "partnership", "relationship"] then
    ["Emphasized relationship building"] else []) ++
  (if 3 ≤ buyer_messages.length then
    ["Maintained consistent engagement throughout the negotiation"] else [])

/-- One sentiment triple `{"score": ..., "label": ..., "confidence": ...}`. -/
structure Sentiment where
  score : Rat
  label : String
  confidence : Rat
deriving DecidableEq

/-- `sentiment_analysis` block of the report.  On the success path it is
whatever structure the external sentiment collaborator returned; on the
failure path the code fills the three sentinel triples and an `error`
message. -/
structure SentimentAnalysis where
  buyer_sentiment : Sentiment
  supplier_sentiment : Sentiment
  overall_sentiment : Sentiment
  error : Option String
deriving DecidableEq

/-- The full analysis report built by `_analyze_transcript`
(the wall-clock `timestamp` field is omitted, see the module comment). -/
structure Analysis where
  summary : Summary
  sentiment_analysis : SentimentAnalysis
  strategy_analysis : StrategyAnalysis
  conversation_flow : ConversationFlow
  key_metrics : KeyMetrics
  improvement_areas : List String
  strengths : List String
deriving DecidableEq

/-- `_analyze_transcript` (`summarize_negotiation_transcript.py`,
lines 120-162).  The external sentiment call is passed in as an
`Except`: `Except.ok s` is a successful return of structure `s`,
`Except.error e` is the raised-exception path, for which the code
substitutes the sentinel triples. -/
def _analyze_transcript (llm_sentiment : Except String SentimentAnalysis)
    (transcript_data : List TranscriptEntry) : Analysis :=
  { summary := _generate_basic_summary transcript_data
    sentiment_analysis :=
      match llm_sentiment with
      | Except.ok s => s
      | Except.error e =>
        { buyer_sentiment := { score := 0, label := "error", confidence := 0 }
          supplier_sentiment := { score := 0, label := "error", confidence := 0 }
          overall_sentiment := { score := 0, label := "error", confidence := 0 }
          error := some ("LLM call didn't work: " ++ e) }
    strategy_analysis := _analyze_strategies transcript_data
    conversation_flow := _analyze_conversation_flow transcript_data
    key_metrics := _calculate_key_metrics transcript_data
    improvement_areas := _identify_improvement_areas transcript_data
    strengths := _identify_strengths transcript_data }

/-- `summarize_negotiation_transcript_tool`
(`summarize_negotiation_transcript.py`, lines 20-54).  The transcript
file read is passed in as `file_transcript` (`none` models "no path
given or path does not exist"); a raised `ValueError` is `Except.error`
with the exception's message. -/
def summarize_negotiation_transcript_tool
    (file_transcript : Option (List TranscriptEntry))
    (negotiation_transcript : List TranscriptEntry)
    (llm_sentiment : Except String SentimentAnalysis) : Except String Analysis :=
  match (if negotiation_transcript ≠ [] then some negotiation_transcript
         else file_transcript) with
  | none => Except.error "No transcript data available"
  | some transcript_data =>
    if transcript_data = [] then Except.error "Empty transcript data"
    else Except.ok (_analyze_transcript llm_sentiment transcript_data)

/-! Concrete example data used by counterexamples and witnesses. -/

/-- A supplier profile with every optional field empty. -/
def exEmptyProfile : SupplierData :=
  { supplier_name := "", prices := [], products := [],
    quality_metrics := [], delivery_times := [] }

/-- A fully populated supplier profile. -/
def exFullProfile : SupplierData :=
  { supplier_name := "Acme Metals", prices := [1200, 900], products := ["bolts"],
    quality_metrics := [9], delivery_times := [5] }

/-- A transcript with exactly one supplier entry. -/
def exOneSupplierTranscript : List TranscriptEntry :=
  [ { role := "buyer", message := "We would like a better deal" },
    { role := "supplier", message := "Happy to discuss" },
    { role := "buyer", message := "We demand a decision today" } ]

/-- An 8-entry alternating buyer/supplier transcript. -/
def exEightTranscript : List TranscriptEntry :=
  [ { role := "buyer", message := "m1" }, { role := "supplier", message := "m2" },
    { role := "buyer", message := "m3" }, { role := "supplier", message := "m4" },
    { role := "buyer", message := "m5" }, { role := "supplier", message := "m6" },
    { role := "buyer", message := "m7" }, { role := "supplier", message := "m8" } ]

/-- A message signal whose tone is `demanding` (it is exactly
`_analyze_user_message "We demand a decision today"`, as proved below). -/
def exDemandingSignal : MessageAnalysis :=
  { intent := "general", urgency := "normal", price_focus := false,
    volume_focus := false, quality_focus := false, delivery_focus := false,
    tone := "demanding", leverage_points := [] }

/-- A message signal with all-default fields. -/
def exGeneralSignal : MessageAnalysis :=
  { intent := "general", urgency := "normal", price_focus := false,
    volume_focus := false, quality_focus := false, delivery_focus := false,
    tone := "professional", leverage_points := [] }

/-- The fixed order in which `_identify_buyer_strategies` can emit labels. -/
def buyerStrategyNames : List String :=
  ["competition_leverage", "volume_leverage", "relationship_building",
   "market_pressure", "urgency_pressure", "price_focus"]

/-- The fixed order in which `_identify_supplier_strategies` can emit labels. -/
def supplierStrategyNames : List String :=
  ["value_proposition", "cost_justification", "relationship_focus",
   "resistance", "alternative_offering"]

/-! Helper lemmas (shared across the claim theorems). -/

/-- The `tone` field of the classifier output equals the source's
polite/demanding/negative if-elif chain, polite checked first. -/
theorem analyze_user_message_tone (m : String) :
    (_analyze_user_message m).tone =
      (if containsAny (lowerStr m) politeKeywords then "polite"
       else if containsAny (lowerStr m) demandingKeywords then "demanding"
       else if containsAny (lowerStr m) negativeKeywords then "negative"
       else "professional") := rfl

/-- The `intent` field of the classifier output equals the source's
price/volume/quality/delivery if-elif chain. -/
theorem analyze_user_message_intent (m : String) :
    (_analyze_user_message m).intent =
      (if containsAny (lowerStr m) priceKeywords then "price_reduction"
       else if containsAny (lowerStr m) volumeKeywords then "volume_increase"
       else if containsAny (lowerStr m) qualityKeywords then "quality_discussion"
       else if containsAny (lowerStr m) deliveryKeywords then "delivery_discussion"
       else "general") := rfl

/-- `_calculate_confidence` in closed form: base 0.5 plus 0.1 per firing
indicator, clamped at 1. -/
theorem calculate_confidence_eq (d : SupplierData) (ma : MessageAnalysis) :
    _calculate_confidence d ma
      = min ((1 : Rat)/2 + (confidenceIndicators d ma : Rat)/10) 1 := by
  unfold _calculate_confidence confidenceIndicators
  split_ifs <;> norm_num

/-- Indicator monotonicity for a single if-then-else summand. -/
theorem ite_indicator_mono {P Q : Prop} [Decidable P] [Decidable Q] (h : P → Q) :
    (if P then (1 : Nat) else 0) ≤ (if Q then 1 else 0) := by
  split_ifs with hP hQ
  · exact le_rfl
  · exact absurd (h hP) hQ
  · exact Nat.zero_le _
  · exact le_rfl

/-- More non-empty profile fields can only raise the indicator count. -/
theorem confidenceIndicators_mono (d₁ d₂ : SupplierData) (ma : MessageAnalysis)
    (h : profileFieldsLE d₁ d₂) :
    confidenceIndicators d₁ ma ≤ confidenceIndicators d₂ ma := by
  obtain ⟨h1, h2, h3, h4, h5⟩ := h
  unfold confidenceIndicators
  exact Nat.add_le_add (Nat.add_le_add (Nat.add_le_add (Nat.add_le_add (Nat.add_le_add
    (ite_indicator_mono h1) (ite_indicator_mono h2)) (ite_indicator_mono h3))
    (ite_indicator_mono h4)) (ite_indicator_mono h5)) le_rfl

/-- Summing a constant-1 list gives its length. -/
theorem sum_map_one {α : Type} (l : List α) : (l.map (fun _ => (1 : Nat))).sum = l.length := by
  induction l with
  | nil => rfl
  | cons a l ih => simp [ih, Nat.add_comm]

/-- The `average_response_time` field in closed form. -/
theorem key_metrics_avg (t : List TranscriptEntry) :
    (_calculate_key_metrics t).average_response_time
      = if _response_times t ≠ [] then
          (((_response_times t).sum : Nat) : Rat) / (((_response_times t).length : Nat) : Rat)
        else 0 := rfl

/-- A conditional singleton is a sublist of that singleton. -/
theorem ite_singleton_sublist {c : Prop} [Decidable c] (a : String) :
    (if c then [a] else []).Sublist [a] := by
  split_ifs
  · exact List.Sublist.refl _
  · exact List.nil_sublist _

/-! Claim theorems. -/

/-- C1 (counterexample): with a transcript holding exactly one supplier
entry and a message whose signal tone is `demanding`, the strategy
selector still returns `building_relationship`, not `defensive` — the
claim's "defensive takes precedence over building_relationship in that
state" is false at this input. -/
theorem C1_counterexample :
    (_analyze_user_message "We demand a decision today").tone = "demanding" ∧
    (exOneSupplierTranscript.filter (fun m => m.role == "supplier")).length = 1 ∧
    _determine_supplier_strategy exEmptyProfile exOneSupplierTranscript
      (_analyze_user_message "We demand a decision today") = "building_relationship" ∧
    _determine_supplier_strategy exEmptyProfile exOneSupplierTranscript
      (_analyze_user_message "We demand a decision today") ≠ "defensive" := by
  decide

/-- C1 (amended): for every transcript containing exactly 1 supplier
entry, `selectStrategy` returns `building_relationship` regardless of the
message signal (the fewer-than-2-supplier-messages rule precedes the
demanding-tone rule, as in spec section 4.2). -/
theorem C1_one_supplier_entry (profile : SupplierData)
    (transcript : List TranscriptEntry) (signal : MessageAnalysis)
    (h : (transcript.filter (fun m => m.role == "supplier")).length = 1) :
    _determine_supplier_strategy profile transcript signal = "building_relationship" := by
  simp only [_determine_supplier_strategy, h]
  norm_num

/-- C1 witness: the amended theorem applied to a concrete transcript with
one supplier entry and a demanding signal. -/
theorem C1_one_supplier_entry_witness :
    _determine_supplier_strategy exEmptyProfile exOneSupplierTranscript exDemandingSignal
      = "building_relationship" :=
  C1_one_supplier_entry exEmptyProfile exOneSupplierTranscript exDemandingSignal (by decide)

/-- C2 (counterexample): the message "Please, we demand a discount"
contains the demanding keyword "demand", yet the classifier assigns tone
`polite` — so a demanding keyword being present does not force the tone
to `demanding` when a polite keyword is also present. -/
theorem C2_counterexample :
    containsAny (lowerStr "Please, we demand a discount") demandingKeywords = true ∧
    (_analyze_user_message "Please, we demand a discount").tone = "polite" ∧
    (_analyze_user_message "Please, we demand a discount").tone ≠ "demanding" := by
  decide

/-- C2 (amended): the classifier assigns tone `polite` exactly when a
polite keyword occurs, even if demanding or negative keywords are also
present; `demanding` requires a demanding keyword and no polite keyword;
`negative` requires a negative keyword and no polite or demanding
keyword; otherwise the tone stays `professional`. -/
theorem C2_tone_precedence (m : String) :
    ((_analyze_user_message m).tone = "polite" ↔
        containsAny (lowerStr m) politeKeywords = true) ∧
    (containsAny (lowerStr m) politeKeywords = false →
      containsAny (lowerStr m) demandingKeywords = true →
      (_analyze_user_message m).tone = "demanding") ∧
    (containsAny (lowerStr m) politeKeywords = false →
      containsAny (lowerStr m) demandingKeywords = false →
      containsAny (lowerStr m) negativeKeywords = true →
      (_analyze_user_message m).tone = "negative") ∧
    (containsAny (lowerStr m) politeKeywords = false →
      containsAny (lowerStr m) demandingKeywords = false →
      containsAny (lowerStr m) negativeKeywords = false →
      (_analyze_user_message m).tone = "professional") := by
  simp only [analyze_user_message_tone]
  split_ifs with h1 h2 h3 <;> simp_all

/-- C2 witness: the amended theorem applied to a concrete message with a
demanding keyword and no polite keyword. -/
theorem C2_tone_precedence_witness :
    (_analyze_user_message "We must insist").tone = "demanding" :=
  (C2_tone_precedence "We must insist").2.1 (by decide) (by decide)

/-- C4: the supplier-profile-derived strategy factors never alter the
returned label: `selectStrategy` yields the same label for any two
supplier profiles, for every transcript and message signal. -/
theorem C4_profile_independence (d₁ d₂ : SupplierData)
    (transcript : List TranscriptEntry) (signal : MessageAnalysis) :
    _determine_supplier_strategy d₁ transcript signal
      = _determine_supplier_strategy d₂ transcript signal := rfl

/-- C8: every message containing (case-insensitively) one of the
price-reduction keywords `discount, reduce, lower, cheaper, price` is
classified with intent `price_reduction`, whatever else it contains,
because the price rule is first in the intent priority order. -/
theorem C8_price_keyword_intent (m : String)
    (h : containsAny (lowerStr m) priceKeywords = true) :
    (_analyze_user_message m).intent = "price_reduction" := by
  rw [analyze_user_message_intent, if_pos h]

/-- C8 witness: a concrete message containing "discount" (and also
volume keywords) classifies as `price_reduction`. -/
theorem C8_price_keyword_intent_witness :
    (_analyze_user_message "Increase the volume and give us a discount").intent
      = "price_reduction" :=
  C8_price_keyword_intent "Increase the volume and give us a discount" (by decide)

/-- C5: `estimateConfidence` equals exactly
`min(1, 0.5 + 0.1 * number of firing indicators)` (the five non-empty
profile fields plus a non-general intent); its value always lies in
`[0, 1]`; and it is non-decreasing as more profile fields become
non-empty. -/
theorem C5_confidence :
    (∀ (d : SupplierData) (ma : MessageAnalysis),
        _calculate_confidence d ma
          = min ((1 : Rat)/2 + (confidenceIndicators d ma : Rat)/10) 1) ∧
    (∀ (d : SupplierData) (ma : MessageAnalysis),
        0 ≤ _calculate_confidence d ma ∧ _calculate_confidence d ma ≤ 1) ∧
    (∀ (d₁ d₂ : SupplierData) (ma : MessageAnalysis), profileFieldsLE d₁ d₂ →
        _calculate_confidence d₁ ma ≤ _calculate_confidence d₂ ma) := by
  refine ⟨calculate_confidence_eq, fun d ma => ?_, fun d₁ d₂ ma h => ?_⟩
  · rw [calculate_confidence_eq]
    refine ⟨le_min (by positivity) (by norm_num), min_le_right _ _⟩
  · rw [calculate_confidence_eq, calculate_confidence_eq]
    have hc : ((confidenceIndicators d₁ ma : Nat) : Rat)
        ≤ ((confidenceIndicators d₂ ma : Nat) : Rat) :=
      Nat.cast_le.mpr (confidenceIndicators_mono d₁ d₂ ma h)
    exact min_le_min (by gcongr) le_rfl

/-- C5 witness: the monotonicity part applied to the all-empty profile
versus a fully populated one. -/
theorem C5_confidence_witness :
    _calculate_confidence exEmptyProfile exGeneralSignal
      ≤ _calculate_confidence exFullProfile exGeneralSignal :=
  C5_confidence.2.2 exEmptyProfile exFullProfile exGeneralSignal (by decide)

/-- C6: invoking the analysis tool on an empty transcript (no in-memory
entries, and the optional file either absent or itself empty) yields a
controlled error, never an `Except.ok` report. -/
theorem C6_empty_transcript_error (file_t : Option (List TranscriptEntry))
    (llm : Except String SentimentAnalysis)
    (h : file_t = none ∨ file_t = some []) :
    ∃ e : String,
      summarize_negotiation_transcript_tool file_t [] llm = Except.error e := by
  rcases h with h | h <;> subst h <;> exact ⟨_, rfl⟩

/-- C6 witness: concrete invocation with no file and an empty in-memory
transcript. -/
theorem C6_empty_transcript_error_witness :
    ∃ e : String,
      summarize_negotiation_transcript_tool none [] (Except.error "timeout")
        = Except.error e :=
  C6_empty_transcript_error none (Except.error "timeout") (Or.inl rfl)

/-- C7: when the external sentiment analysis fails, the report carries the
sentinel triple `(score 0, label "error", confidence 0)` for buyer,
supplier and overall sentiment, and every other report section equals the
one produced on a successful sentiment run over the same transcript. -/
theorem C7_sentiment_fallback (e : String) (s : SentimentAnalysis)
    (transcript_data : List TranscriptEntry) :
    (_analyze_transcript (Except.error e) transcript_data).sentiment_analysis.buyer_sentiment
        = { score := 0, label := "error", confidence := 0 } ∧
    (_analyze_transcript (Except.error e) transcript_data).sentiment_analysis.supplier_sentiment
        = { score := 0, label := "error", confidence := 0 } ∧
    (_analyze_transcript (Except.error e) transcript_data).sentiment_analysis.overall_sentiment
        = { score := 0, label := "error", confidence := 0 } ∧
    (_analyze_transcript (Except.error e) transcript_data).summary
        = (_analyze_transcript (Except.ok s) transcript_data).summary ∧
    (_analyze_transcript (Except.error e) transcript_data).strategy_analysis
        = (_analyze_transcript (Except.ok s) transcript_data).strategy_analysis ∧
    (_analyze_transcript (Except.error e) transcript_data).conversation_flow
        = (_analyze_transcript (Except.ok s) transcript_data).conversation_flow ∧
    (_analyze_transcript (Except.error e) transcript_data).key_metrics
        = (_analyze_transcript (Except.ok s) transcript_data).key_metrics ∧
    (_analyze_transcript (Except.error e) transcript_data).improvement_areas
        = (_analyze_transcript (Except.ok s) transcript_data).improvement_areas ∧
    (_analyze_transcript (Except.error e) transcript_data).strengths
        = (_analyze_transcript (Except.ok s) transcript_data).strengths :=
  ⟨rfl, rfl, rfl, rfl, rfl, rfl, rfl, rfl, rfl⟩

/-- C3 (counterexample): a 1-entry transcript yields 4 phases whose sizes
are 1, 0, 0, 0, while `floor(1/4) = 0` — the first three segments do not
all have size `floor(N/4)` (the code clamps the phase size to at least 1). -/
theorem C3_counterexample :
    (_identify_conversation_phases [{ role := "buyer", message := "hi" }]).map
        (fun ph => (ph.name, ph.messages.length))
      = [("opening", 1), ("exploration", 0), ("negotiation", 0), ("closing", 0)] ∧
    ([({ role := "buyer", message := "hi" } : TranscriptEntry)].length) / 4 = 0 := by
  decide

/-- C3 (amended): for every non-empty transcript the segmentation yields
exactly 4 segments labeled opening, exploration, negotiation, closing in
order; concatenating their message slices in order reproduces the whole
transcript (so they are contiguous, non-overlapping and cover all N
entries); and when `N ≥ 4` the first three segments each have size
`floor(N/4)` with the last absorbing the remainder.  (For `N < 4` the
code clamps the slice width to 1, so leading segments have size 1 and
trailing ones are empty.) -/
theorem C3_phases (t : List TranscriptEntry) (h : t ≠ []) :
    (_identify_conversation_phases t).map Phase.name
        = ["opening", "exploration", "negotiation", "closing"] ∧
    ((_identify_conversation_phases t).map Phase.messages).flatten = t ∧
    (4 ≤ t.length →
      (_identify_conversation_phases t).map (fun ph => ph.messages.length)
        = [t.length / 4, t.length / 4, t.length / 4,
           t.length - 3 * (t.length / 4)]) := by
  have hlen : ¬ t.length = 0 := by simpa [List.length_eq_zero] using h
  unfold _identify_conversation_phases
  rw [if_neg hlen]
  set p := max 1 (t.length / 4) with hp
  refine ⟨rfl, ?_, ?_⟩
  · have e1 : (t.drop p).drop p = t.drop (2 * p) := by
      rw [List.drop_drop, two_mul]
    have e2 : (t.drop (2 * p)).drop p = t.drop (3 * p) := by
      rw [List.drop_drop]
      congr 1
      ring
    simp only [List.map_cons, List.map_nil, List.flatten_cons, List.flatten_nil,
      List.append_nil]
    calc t.take p ++ ((t.drop p).take p ++ ((t.drop (2 * p)).take p ++ t.drop (3 * p)))
        = t.take p ++ ((t.drop p).take p
            ++ ((t.drop (2 * p)).take p ++ (t.drop (2 * p)).drop p)) := by rw [e2]
      _ = t.take p ++ ((t.drop p).take p ++ (t.drop p).drop p) := by
            rw [List.take_append_drop, ← e1]
      _ = t.take p ++ t.drop p := by rw [List.take_append_drop]
      _ = t := List.take_append_drop p t
  · intro h4
    have hdiv : 1 ≤ t.length / 4 := Nat.one_le_div_iff (by norm_num) |>.mpr h4
    have hpe : p = t.length / 4 := by omega
    have hq : t.length / 4 * 4 ≤ t.length := Nat.div_mul_le_self _ 4
    simp only [List.map_cons, List.map_nil, List.length_take, List.length_drop, hpe,
      List.cons.injEq, and_true]
    omega

/-- C3 witness: the amended theorem applied to the 8-entry alternating
transcript: 4 phases of 2 entries each, covering all 8 entries. -/
theorem C3_phases_witness :
    (_identify_conversation_phases exEightTranscript).map Phase.name
        = ["opening", "exploration", "negotiation", "closing"] ∧
    ((_identify_conversation_phases exEightTranscript).map Phase.messages).flatten
        = exEightTranscript ∧
    (4 ≤ exEightTranscript.length →
      (_identify_conversation_phases exEightTranscript).map (fun ph => ph.messages.length)
        = [exEightTranscript.length / 4, exEightTranscript.length / 4,
           exEightTranscript.length / 4,
           exEightTranscript.length - 3 * (exEightTranscript.length / 4)]) :=
  C3_phases exEightTranscript (by decide)

/-- C9: `average_response_time` is 0 exactly when no adjacent pair of
transcript entries changes role, and 1 as soon as at least one does:
every role-alternation contributes a 1 and the sum is divided by the
number of such transitions, so no value other than 0 or 1 can occur. -/
theorem C9_average_response_time (t : List TranscriptEntry) :
    ((∀ pr ∈ t.zip t.tail, pr.1.role = pr.2.role) →
        (_calculate_key_metrics t).average_response_time = 0) ∧
    ((∃ pr ∈ t.zip t.tail, pr.1.role ≠ pr.2.role) →
        (_calculate_key_metrics t).average_response_time = 1) ∧
    ((_calculate_key_metrics t).average_response_time = 0 ∨
        (_calculate_key_metrics t).average_response_time = 1) := by
  have e0 : ((t.zip t.tail).filter (fun pr => pr.1.role != pr.2.role) = []) →
      (_calculate_key_metrics t).average_response_time = 0 := by
    intro hnil
    rw [key_metrics_avg, if_neg]
    simp [_response_times, hnil]
  have e1 : ((t.zip t.tail).filter (fun pr => pr.1.role != pr.2.role) ≠ []) →
      (_calculate_key_metrics t).average_response_time = 1 := by
    intro hne
    have hl : ((t.zip t.tail).filter (fun pr => pr.1.role != pr.2.role)).length ≠ 0 := by
      simpa [List.length_eq_zero] using hne
    rw [key_metrics_avg, if_pos]
    · rw [show _response_times t
          = ((t.zip t.tail).filter (fun pr => pr.1.role != pr.2.role)).map
              (fun _ => (1 : Nat)) from rfl,
        sum_map_one, List.length_map]
      exact div_self (by exact_mod_cast hl)
    · simp [_response_times, List.map_eq_nil_iff, hne]
  refine ⟨?_, ?_, ?_⟩
  · intro hall
    apply e0
    apply List.filter_eq_nil_iff.mpr
    intro a ha
    simp [hall a ha]
  · rintro ⟨pr, hmem, hne⟩
    exact e1 (List.ne_nil_of_mem (List.mem_filter.mpr ⟨hmem, by simpa using hne⟩))
  · by_cases hc : (t.zip t.tail).filter (fun pr => pr.1.role != pr.2.role) = []
    · exact Or.inl (e0 hc)
    · exact Or.inr (e1 hc)

/-- C9 witness: on the alternating 8-entry transcript some adjacent pair
changes role, and the metric evaluates to 1. -/
theorem C9_average_response_time_witness :
    (_calculate_key_metrics exEightTranscript).average_response_time = 1 :=
  (C9_average_response_time exEightTranscript).2.1 (by decide)

/-- C10: on every transcript the buyer strategy inventory is a
duplicate-free subsequence of the fixed six-label list, the supplier
strategy inventory is a duplicate-free subsequence of the fixed
five-label list, and hence `strategy_diversity` never exceeds 11. -/
theorem C10_strategy_inventories (t : List TranscriptEntry) :
    (_identify_buyer_strategies t).Sublist buyerStrategyNames ∧
    (_identify_buyer_strategies t).Nodup ∧
    (_identify_supplier_strategies t).Sublist supplierStrategyNames ∧
    (_identify_supplier_strategies t).Nodup ∧
    (_assess_strategy_effectiveness (_identify_buyer_strategies t)
        (_identify_supplier_strategies t)).strategy_diversity ≤ 11 := by
  have hb : (_identify_buyer_strategies t).Sublist buyerStrategyNames := by
    simp only [_identify_buyer_strategies, buyerStrategyNames]
    split_ifs <;> decide
  have hs : (_identify_supplier_strategies t).Sublist supplierStrategyNames := by
    simp only [_identify_supplier_strategies, supplierStrategyNames]
    split_ifs <;> decide
  have hbn : (_identify_buyer_strategies t).Nodup :=
    (by decide : buyerStrategyNames.Nodup).sublist hb
  have hsn : (_identify_supplier_strategies t).Nodup :=
    (by decide : supplierStrategyNames.Nodup).sublist hs
  refine ⟨hb, hbn, hs, hsn, ?_⟩
  have hdiv : (_assess_strategy_effectiveness (_identify_buyer_strategies t)
      (_identify_supplier_strategies t)).strategy_diversity
        = ((_identify_buyer_strategies t ++ _identify_supplier_strategies t).dedup).length :=
    rfl
  have h1 : ((_identify_buyer_strategies t ++ _identify_supplier_strategies t).dedup).length
      ≤ (_identify_buyer_strategies t ++ _identify_supplier_strategies t).length :=
    (List.dedup_sublist _).length_le
  have h2 : (_identify_buyer_strategies t).length ≤ 6 := by
    simpa [buyerStrategyNames] using hb.length_le
  have h3 : (_identify_supplier_strategies t).length ≤ 5 := by
    simpa [supplierStrategyNames] using hs.length_le
  rw [hdiv]
  have h4 : (_identify_buyer_strategies t ++ _identify_supplier_strategies t).length
      = (_identify_buyer_strategies t).length + (_identify_supplier_strategies t).length :=
    List.length_append _ _
  omega
